import Mathlib

/-! CAN dispatch library and its power-distribution client.

A shallow embedding of `common/canlib.cpp` (the bus endpoints `CanBus`, the dispatch
table `CanLib::Impl` and the facade `CanLib`) and of the callback registered by
`powerdistribution/main.cpp`.

Conventions of the embedding:

* machine integers are `Nat` / `Int`; conversions that the C++ performs implicitly
  (`int` to `size_t`, `unsigned` to `uint8_t`, `size_t` to `uint8_t`) are written out
  with an explicit `%`;
* the results of system calls (`socket`, `setsockopt`, `ioctl`, `bind`, `read`) are
  inputs of the model, so every theorem quantifies over all their outcomes;
* a callback is an arbitrary value of a type `κ`; calling it is recorded as an
  `Invocation`, and a function that calls callbacks returns the list of its
  invocations in the order in which they are made.
-/

namespace mrc

/-! ## Constants -/

/-- Extended-frame flag `CAN_EFF_FLAG` of `linux/can.h`. -/
def CAN_EFF_FLAG : Nat := 0x80000000

/-- Error-frame flag `CAN_ERR_FLAG` of `linux/can.h`. -/
def CAN_ERR_FLAG : Nat := 0x20000000

/-- Size of a classic frame, `CAN_MTU = sizeof(struct can_frame)`. -/
def CAN_MTU : Nat := 16

/-- Size of a flexible-data-rate frame, `CANFD_MTU = sizeof(struct canfd_frame)`. -/
def CANFD_MTU : Nat := 72

/-- Frame-format flag `CANFD_FDF` of `linux/can.h`. -/
def CANFD_FDF : Nat := 0x04

/-- Readable event bit `UV_READABLE` of libuv. -/
def UV_READABLE : Nat := 1

/-- Writable event bit `UV_WRITABLE` of libuv. -/
def UV_WRITABLE : Nat := 2

/-- The number of bus endpoints, `#define NUM_CAN_BUSES 5` of `canlib.cpp`. -/
def NUM_CAN_BUSES : Nat := 5

/-! ## Data model -/

/-- The frame buffer `struct canfd_frame`. -/
structure canfd_frame where
  can_id : Nat
  len : Nat
  flags : Nat
  res0 : Nat
  res1 : Nat
  data : List Nat
deriving DecidableEq, Repr

/-- The kernel filter element `struct can_filter`. -/
structure can_filter where
  can_id : Nat
  can_mask : Nat
deriving DecidableEq, Repr

/-- An entry of the dispatch table, `struct MaskFilterCallback` of `canlib.h`. -/
structure MaskFilterCallback (κ : Type) where
  mask : Nat
  filter : Nat
  callback : κ
deriving DecidableEq, Repr

/-- One call `callback(bus, frame)` of a registered callback. -/
structure Invocation (κ : Type) where
  callback : κ
  bus : Nat
  frame : canfd_frame
deriving DecidableEq, Repr

/-- The arguments `(optval, optlen)` of a `setsockopt(.., SOL_CAN_RAW, CAN_RAW_FILTER, ..)`
call, exactly as the program passes them. -/
structure FilterOption where
  optval : List can_filter
  optlen : Nat
deriving DecidableEq, Repr

/-- The endpoint `struct CanBus`. The fields `polling` and `kernelFilter` are state that
the C++ keeps outside the struct: whether the poll handle was created, connected to the
handler and started, and the last `CAN_RAW_FILTER` option that the kernel accepted on this
endpoint's socket (`none` when the program has set none). -/
structure CanBus where
  socketHandle : Int := -1
  busId : Nat := 0
  polling : Bool := false
  kernelFilter : Option FilterOption := none
deriving DecidableEq, Repr

/-- The return values of the four system calls of one `CanBus::Init`. -/
structure OpenOutcome where
  socket : Int
  setsockopt : Int
  ioctl : Int
  bind : Int
deriving DecidableEq, Repr

/-- The state `struct CanLib::Impl`: the endpoints and the dispatch table. -/
structure Impl (κ : Type) where
  buses : List CanBus
  filters : List (MaskFilterCallback κ)

/-- The facade `class CanLib`, which owns the implementation through `pImpl`. -/
structure CanLib (κ : Type) where
  pImpl : Option (Impl κ) := none

/-! ## Bus endpoint -/

/-- The destructor `CanBus::~CanBus`: the descriptors it closes. -/
def CanBus.destructor (b : CanBus) : List Int :=
  if b.socketHandle ≠ -1 then [b.socketHandle] else []

/-- The function `CanBus::Init`, with the outcomes `o` of its system calls. The stored
`upcall` is not a field of the model: `Impl.pollEvent` applies the closure that
`CanLib::Impl::Init` passes. The socket returned by `socket` is a new one, on which the
program has set no filter option yet, and `polling` records `Poll::Create`, the
connection of the handler and `poll->Start(UV_READABLE)`. -/
def CanBus.Init (o : OpenOutcome) (bus : Nat) (b : CanBus) : Bool × CanBus :=
  let b := { b with busId := bus }
  let b := { b with socketHandle := o.socket, kernelFilter := none }
  if b.socketHandle = -1 then (false, b)
  else if o.setsockopt = -1 then (false, b)
  else
    let b := { b with kernelFilter := some ⟨[], 0⟩ }
    if o.ioctl = -1 then (false, b)
    else if o.bind = -1 then (false, b)
    else (true, { b with polling := true })

/-- The conversion of the `int` result of `read` to `size_t` that the comparisons with
`CAN_MTU` and `CANFD_MTU` perform. -/
def toSizeT (rVal : Int) : Nat := (rVal % 2 ^ 64).toNat

/-- The handler connected to `poll->pollEvent` in `CanBus::Init`. `rVal` and `frame` are
what `read` returns and leaves in the buffer. The result is the argument pair of the
call of `upcall`, when the handler makes one. -/
def CanBus.pollEvent (b : CanBus) (mask : Nat) (rVal : Int) (frame : canfd_frame) :
    Option (Nat × canfd_frame) :=
  if mask &&& UV_READABLE ≠ 0 then
    if toSizeT rVal ≠ CAN_MTU ∧ toSizeT rVal ≠ CANFD_MTU then none
    else if frame.can_id &&& CAN_ERR_FLAG ≠ 0 then none
    else
      let frame := if toSizeT rVal = CANFD_MTU then { frame with flags := CANFD_FDF } else frame
      some (b.busId % 256, frame)
  else none

/-- The function `CanBus::UpdateFilters`; `ret` is what `setsockopt` returns. -/
def CanBus.UpdateFilters (ret : Int) (filters : List can_filter) (b : CanBus) : Bool × CanBus :=
  if ret ≠ -1 then (true, { b with kernelFilter := some ⟨filters, filters.length⟩ })
  else (false, b)

/-! ## Dispatch table -/

/-- The loop of `CanLib::Impl::DataCallback` over the table. -/
def dispatch {κ : Type} (bus : Nat) (frame : canfd_frame) :
    List (MaskFilterCallback κ) → List (Invocation κ)
  | [] => []
  | f :: rest =>
    if frame.can_id &&& f.mask = f.filter &&& f.mask then
      ⟨f.callback, bus, frame⟩ :: dispatch bus frame rest
    else dispatch bus frame rest

/-- The function `CanLib::Impl::DataCallback`. -/
def Impl.DataCallback {κ : Type} (impl : Impl κ) (bus : Nat) (frame : canfd_frame) :
    List (Invocation κ) :=
  dispatch bus frame impl.filters

/-- A readiness event `mask` on endpoint `i`, with `rVal` and `frame` the result of the
read: the handler of `CanBus::Init` runs when the poll handle was started, and its
`upcall` is the closure of `CanLib::Impl::Init`, which calls `DataCallback`. -/
def Impl.pollEvent {κ : Type} (impl : Impl κ) (i mask : Nat) (rVal : Int)
    (frame : canfd_frame) : List (Invocation κ) :=
  match impl.buses[i]? with
  | none => []
  | some b =>
    if b.polling then
      match b.pollEvent mask rVal frame with
      | none => []
      | some (bus, fr) => impl.DataCallback bus fr
    else []

/-- One call of `CanBus::Init` made by `CanLib::Impl::Init`. -/
structure InitCall where
  index : Nat
  bus : Nat
  ret : Bool
deriving DecidableEq, Repr

/-- The loop `for (size_t i = 0; i < buses.size(); i++)` of `CanLib::Impl::Init`, from
index `i` on, `rest` being the endpoints from `i` on. -/
def Impl.InitLoop (env : Nat → OpenOutcome) (i : Nat) (success : Bool) :
    List CanBus → List CanBus × Bool × List InitCall
  | [] => ([], success, [])
  | b :: rest =>
    let r := b.Init (env i) (i % 256)
    let success := if !r.1 then false else success
    let out := Impl.InitLoop env (i + 1) success rest
    (r.2 :: out.1, out.2.1, ⟨i, i % 256, r.1⟩ :: out.2.2)

/-- The result of `CanLib::Impl::Init`, with the calls of `CanBus::Init` it made. -/
structure InitResult (κ : Type) where
  success : Bool
  impl : Impl κ
  calls : List InitCall

/-- The function `CanLib::Impl::Init`; `env i` are the outcomes of the system calls of
endpoint `i`. -/
def Impl.Init {κ : Type} (env : Nat → OpenOutcome) (impl : Impl κ) : InitResult κ :=
  let out := Impl.InitLoop env 0 true impl.buses
  ⟨out.2.1, { impl with buses := out.1 }, out.2.2⟩

/-- The loop `for (auto&& bus : buses)` of `CanLib::Impl::AddCallback`; `rets i` is what
`setsockopt` returns on endpoint `i`. -/
def Impl.UpdateLoop (rets : Nat → Int) (canFilters : List can_filter) (i : Nat)
    (retVal : Bool) : List CanBus → List CanBus × Bool
  | [] => ([], retVal)
  | b :: rest =>
    let r := b.UpdateFilters (rets i) canFilters
    let retVal := if !r.1 then false else retVal
    let out := Impl.UpdateLoop rets canFilters (i + 1) retVal rest
    (r.2 :: out.1, out.2)

/-- The function `CanLib::Impl::AddCallback`. -/
def Impl.AddCallback {κ : Type} (rets : Nat → Int) (newFilters : List (MaskFilterCallback κ))
    (impl : Impl κ) : Bool × Impl κ :=
  let filters := newFilters.foldl (fun acc f => acc ++ [f]) impl.filters
  let canFilters : List can_filter :=
    filters.foldl (fun acc f => acc ++ [{ can_id := f.filter, can_mask := f.mask }]) []
  let out := Impl.UpdateLoop rets canFilters 0 true impl.buses
  (out.2, { impl with filters := filters, buses := out.1 })

/-- The state built by `std::make_unique<Impl>()`: `NUM_CAN_BUSES` default endpoints and
an empty table. -/
def Impl.fresh (κ : Type) : Impl κ :=
  ⟨List.replicate NUM_CAN_BUSES {}, []⟩

/-- The destructor of `CanLib::Impl`: the descriptors closed by the endpoints, which the
array destroys from the last to the first. -/
def Impl.destructor {κ : Type} (impl : Impl κ) : List Int :=
  (impl.buses.reverse.map CanBus.destructor).flatten

/-- The result of `CanLib::Init`: the value returned, the facade afterwards and the
descriptors closed on the way. -/
structure LibInitResult (κ : Type) where
  ret : Bool
  lib : CanLib κ
  closed : List Int

/-- The function `CanLib::Init`. -/
def CanLib.Init {κ : Type} (env : Nat → OpenOutcome) (c : CanLib κ) : LibInitResult κ :=
  let closedOld : List Int :=
    match c.pImpl with
    | some old => old.destructor
    | none => []
  let r := (Impl.fresh κ).Init env
  if !r.success then ⟨false, ⟨none⟩, closedOld ++ r.impl.destructor⟩
  else ⟨true, ⟨some r.impl⟩, closedOld⟩

/-- The function `CanLib::AddCallback`; it dereferences `pImpl`, so it has no result on a
facade without implementation. -/
def CanLib.AddCallback {κ : Type} (rets : Nat → Int) (newFilters : List (MaskFilterCallback κ))
    (c : CanLib κ) : Option (Bool × CanLib κ) :=
  match c.pImpl with
  | none => none
  | some impl =>
    let r := impl.AddCallback rets newFilters
    some (r.1, ⟨some r.2⟩)

/-- Endpoint `i` is operational in the facade: the facade owns an implementation whose
endpoint `i` has an open socket and a started readiness handler. -/
def CanLib.operational {κ : Type} (c : CanLib κ) (i : Nat) : Bool :=
  match c.pImpl with
  | none => false
  | some impl =>
    match impl.buses[i]? with
    | none => false
    | some b => decide (b.socketHandle ≠ -1) && b.polling

/-- The function `CanLib::Stop`. -/
def CanLib.Stop {κ : Type} (c : CanLib κ) : CanLib κ × List Int :=
  match c.pImpl with
  | none => (⟨none⟩, [])
  | some impl => (⟨none⟩, impl.destructor)

end mrc

/-! ## The power-distribution client (`powerdistribution/main.cpp`) -/

namespace powerdistribution

open mrc

/-- The length of the array `states`, `#define NUM_CAN_BUSES 2` of `main.cpp`. -/
def NUM_CAN_BUSES : Nat := 2

/-- The constant `deviceTypeMask`. -/
def deviceTypeMask : Nat := 0x3F000000

/-- The constant `powerDistributionFilter`. -/
def powerDistributionFilter : Nat := 0x08000000

/-- A value handed to a publisher of a `CanState`; `topicBus` is the `busId` from which
`CanState::start` built the topic names. -/
inductive Publish where
  | deviceId (topicBus : Nat) (value : Nat)
  | frame (topicBus : Nat) (frameNum : Nat) (payload : List Nat)
deriving DecidableEq, Repr

/-- The per-bus state `struct CanState` (its publishers are identified by `busId`). -/
structure CanState where
  socketHandle : Int := -1
  busId : Nat := 0
deriving DecidableEq, Repr

/-- The function `CanState::handlePowerFrame`: the values it publishes, in order. -/
def CanState.handlePowerFrame (s : CanState) (frame : canfd_frame) : List Publish :=
  let apiId : Nat := ((frame.can_id >>> 6) &&& 0x3FF) % 2 ^ 16
  let deviceId : Nat := frame.can_id &&& 0x1FFF003F
  let frameNum : Option Int :=
    if frame.can_id &&& 0x10000 ≠ 0 then
      if apiId < 0x60 ∨ apiId > 0x63 then none else some ((apiId : Int) - 0x60)
    else if apiId = 0x5D then some 3
    else if apiId < 0x50 ∨ apiId > 0x52 then none
    else some ((apiId : Int) - 0x50)
  match frameNum with
  | none => []
  | some n =>
    if n < 0 ∨ n ≥ 4 then [Publish.deviceId s.busId deviceId]
    else [Publish.deviceId s.busId deviceId,
          Publish.frame s.busId n.toNat (frame.data.take frame.len)]

/-- The function `CanState::handleCanFrame`. -/
def CanState.handleCanFrame (s : CanState) (frame : canfd_frame) : List Publish :=
  if frame.flags &&& CANFD_FDF ≠ 0 then []
  else
    let maskedDeviceType := frame.can_id &&& deviceTypeMask
    if maskedDeviceType = powerDistributionFilter then s.handlePowerFrame frame else []

/-- The type of the callbacks of this client: the result is `none` when the call indexes
`states` outside its bounds. -/
abbrev Callback : Type := Nat → canfd_frame → Option (List Publish)

/-- The lambda `[states](uint8_t bus, const canfd_frame frame)` of
`SetupPowerDistribution`, whose body is `states[bus].handleCanFrame(frame)`. -/
def SetupPowerDistribution.callback (states : List CanState) : Callback :=
  fun bus frame =>
    match states[bus]? with
    | none => none
    | some s => some (s.handleCanFrame frame)

/-- The entry `cb` of `SetupPowerDistribution`. -/
def SetupPowerDistribution.cb (states : List CanState) : MaskFilterCallback Callback :=
  { mask := 0x1FFE0000 ||| CAN_EFF_FLAG
    filter := 0x08040000 ||| CAN_EFF_FLAG
    callback := SetupPowerDistribution.callback states }

/-- The function `SetupPowerDistribution` (the publishers started by `CanState::start`
are identified by the `busId` of their state, which `start` does not change). -/
def SetupPowerDistribution (rets : Nat → Int) (states : List CanState)
    (canLib : CanLib Callback) : Option (Bool × CanLib Callback) :=
  canLib.AddCallback rets [SetupPowerDistribution.cb states]

/-- The array `std::array<CanState, NUM_CAN_BUSES> states` of `main`. -/
def states : List CanState := List.replicate NUM_CAN_BUSES {}

/-- The start of `main`, up to the point where it waits for the signal: the facade at
that point, or `none` when `main` has returned `-1` before. -/
def mainStartup (env : Nat → OpenOutcome) (rets : Nat → Int) : Option (CanLib Callback) :=
  let r := CanLib.Init env ({} : CanLib Callback)
  if !r.ret then none
  else
    match SetupPowerDistribution rets states r.lib with
    | none => none
    | some (ok, lib) => if !ok then none else some lib

end powerdistribution

/-! ## Concrete inputs used by the witnesses and counterexamples -/

namespace mrc

/-- The single-entry table of the scenario: mask `0xFF0000FF`, filter `0x00000001`. -/
def scenarioTable : Impl Unit := ⟨[], [⟨0xFF0000FF, 0x00000001, ()⟩]⟩

/-- A classic frame with identifier `can_id` and eight payload bytes. -/
def classicFrame (can_id : Nat) : canfd_frame := ⟨can_id, 8, 0, 0, 0, [1, 2, 3, 4, 5, 6, 7, 8]⟩

/-- Outcomes of an open in which every system call succeeds and `socket` returns `fd`. -/
def openOk (fd : Int) : OpenOutcome := ⟨fd, 0, 0, 0⟩

/-- Outcomes of an open in which `socket` succeeds with descriptor 3 and the filter reset
fails. -/
def openFilterResetFails : OpenOutcome := ⟨3, -1, 0, 0⟩

/-- Every endpoint opens; endpoint `i` gets descriptor `3 + i`. -/
def envAllOk : Nat → OpenOutcome := fun i => openOk (3 + (i : Int))

/-- Endpoint 0 fails at socket creation, every other endpoint opens. -/
def envBus0Fails : Nat → OpenOutcome :=
  fun i => if i = 0 then ⟨-1, 0, 0, 0⟩ else openOk (3 + (i : Int))

/-- Every call of `setsockopt` succeeds. -/
def retsAllOk : Nat → Int := fun _ => 0

/-- An endpoint as `CanBus::Init` leaves it after a successful open of bus 4. -/
def openedBus4 : CanBus := (CanBus.Init (openOk 7) 4 {}).2

/-- A table with a catch-all entry (mask 0) and an entry whose mask covers the error
flag, on one started endpoint. -/
def errorMaskTable : Impl Unit :=
  ⟨[(CanBus.Init (openOk 3) 0 {}).2], [⟨0, 0, ()⟩, ⟨0x20000000, 0x20000000, ()⟩]⟩

end mrc

/-! ## Theorems -/

namespace mrc

/-! ### Dispatch -/

/-- The loop of `DataCallback` yields the matching entries, in table order. -/
theorem dispatch_eq_filter_map {κ : Type} (bus : Nat) (frame : canfd_frame)
    (t : List (MaskFilterCallback κ)) :
    dispatch bus frame t
      = (t.filter (fun e => decide (frame.can_id &&& e.mask = e.filter &&& e.mask))).map
          (fun e => (⟨e.callback, bus, frame⟩ : Invocation κ)) := by
  induction t with
  | nil => rfl
  | cons e rest ih =>
    by_cases h : frame.can_id &&& e.mask = e.filter &&& e.mask
    · simp [dispatch, h, ih]
    · simp [dispatch, h, ih]

/-- C1: the invocations made by `CanLib::Impl::DataCallback` are exactly the entries of
the table with `(frame.can_id & mask) == (filter & mask)`, in table order, each called
once with the given bus id and the unchanged frame; so every matching entry is called
(two matching entries both fire), nothing else is called, and the number of calls is the
number of matching entries. -/
theorem C1_DataCallback_invokes_exactly_matching {κ : Type} (impl : Impl κ) (bus : Nat)
    (frame : canfd_frame) :
    impl.DataCallback bus frame
        = (impl.filters.filter
            (fun e => decide (frame.can_id &&& e.mask = e.filter &&& e.mask))).map
            (fun e => (⟨e.callback, bus, frame⟩ : Invocation κ))
      ∧ (∀ e ∈ impl.filters, frame.can_id &&& e.mask = e.filter &&& e.mask →
          (⟨e.callback, bus, frame⟩ : Invocation κ) ∈ impl.DataCallback bus frame)
      ∧ (∀ inv ∈ impl.DataCallback bus frame, ∃ e ∈ impl.filters,
          frame.can_id &&& e.mask = e.filter &&& e.mask ∧ inv = ⟨e.callback, bus, frame⟩)
      ∧ (impl.DataCallback bus frame).length
          = impl.filters.countP
              (fun e => decide (frame.can_id &&& e.mask = e.filter &&& e.mask)) := by
  unfold Impl.DataCallback
  rw [dispatch_eq_filter_map]
  refine ⟨rfl, ?_, ?_, ?_⟩
  · intro e he hm
    exact List.mem_map.mpr ⟨e, List.mem_filter.mpr ⟨he, by simpa using hm⟩, rfl⟩
  · intro inv hinv
    obtain ⟨e, he, rfl⟩ := List.mem_map.mp hinv
    have h := List.mem_filter.mp he
    exact ⟨e, h.1, by simpa using h.2, rfl⟩
  · rw [List.length_map, List.countP_eq_length_filter]

/-- C3 (as stated) fails: with the single entry mask `0xFF0000FF`, filter `0x00000001`, a
frame with id `0x12000001` delivered from bus 1 invokes no callback. -/
theorem C3_counterexample :
    scenarioTable.DataCallback 1 (classicFrame 0x12000001) = []
      ∧ ¬ (scenarioTable.DataCallback 1 (classicFrame 0x12000001)
            = [⟨(), 1, classicFrame 0x12000001⟩]) := by
  decide

/-- C3 (amended): with the single entry mask `0xFF0000FF`, filter `0x00000001`, a frame is
dispatched exactly when `id & 0xFF0000FF = 0x00000001`; the ids `0x12000001` and
`0x12000002` do not match and invoke no callback on bus 0 or bus 1, while the id
`0x00120001` matches and invokes the callback with busIndex 1 from bus 1 and with
busIndex 0 from bus 0. -/
theorem C3_scenario_amended {κ : Type} (cb : κ) (buses : List CanBus)
    (len flags res0 res1 : Nat) (data : List Nat) :
    (∀ bus id : Nat,
        (⟨buses, [⟨0xFF0000FF, 0x00000001, cb⟩]⟩ : Impl κ).DataCallback bus
            ⟨id, len, flags, res0, res1, data⟩
          = if id &&& 0xFF0000FF = 0x00000001 then
              [⟨cb, bus, ⟨id, len, flags, res0, res1, data⟩⟩]
            else [])
      ∧ (∀ bus : Nat,
          (⟨buses, [⟨0xFF0000FF, 0x00000001, cb⟩]⟩ : Impl κ).DataCallback bus
            ⟨0x12000001, len, flags, res0, res1, data⟩ = [])
      ∧ (∀ bus : Nat,
          (⟨buses, [⟨0xFF0000FF, 0x00000001, cb⟩]⟩ : Impl κ).DataCallback bus
            ⟨0x12000002, len, flags, res0, res1, data⟩ = [])
      ∧ (⟨buses, [⟨0xFF0000FF, 0x00000001, cb⟩]⟩ : Impl κ).DataCallback 1
            ⟨0x00120001, len, flags, res0, res1, data⟩
          = [⟨cb, 1, ⟨0x00120001, len, flags, res0, res1, data⟩⟩]
      ∧ (⟨buses, [⟨0xFF0000FF, 0x00000001, cb⟩]⟩ : Impl κ).DataCallback 0
            ⟨0x00120001, len, flags, res0, res1, data⟩
          = [⟨cb, 0, ⟨0x00120001, len, flags, res0, res1, data⟩⟩] := by
  have hf : (0x00000001 : Nat) &&& 0xFF0000FF = 0x00000001 := by decide
  have h1 : ¬ ((0x12000001 : Nat) &&& 0xFF0000FF = 0x00000001) := by decide
  have h2 : ¬ ((0x12000002 : Nat) &&& 0xFF0000FF = 0x00000001) := by decide
  have h3 : (0x00120001 : Nat) &&& 0xFF0000FF = 0x00000001 := by decide
  have key : ∀ bus id : Nat,
      (⟨buses, [⟨0xFF0000FF, 0x00000001, cb⟩]⟩ : Impl κ).DataCallback bus
          ⟨id, len, flags, res0, res1, data⟩
        = if id &&& 0xFF0000FF = 0x00000001 then
            [⟨cb, bus, ⟨id, len, flags, res0, res1, data⟩⟩]
          else [] := by
    intro bus id
    simp only [Impl.DataCallback, dispatch, hf]
  refine ⟨key, ?_, ?_, ?_, ?_⟩
  · intro bus
    rw [key, if_neg h1]
  · intro bus
    rw [key, if_neg h2]
  · rw [key, if_pos h3]
  · rw [key, if_pos h3]

/-! ### The readable handler -/

/-- An `int` converted to `size_t` equals a small constant only when it is that constant. -/
theorem toSizeT_eq_iff (rVal : Int) (c : Nat) (hr : -2 ^ 31 ≤ rVal ∧ rVal < 2 ^ 31)
    (hc : c < 2 ^ 31) : toSizeT rVal = c ↔ rVal = c := by
  unfold toSizeT
  obtain ⟨h1, h2⟩ := hr
  norm_num at h1 h2 hc ⊢
  omega

/-- C2: a frame whose identifier has the error-frame bit set makes the handler of any
endpoint return without a call of `upcall`, for every event mask and read size, so for
every table (whatever its masks and filters) and every endpoint no callback is invoked. -/
theorem C2_error_frame_reaches_no_callback {κ : Type} (impl : Impl κ) (b : CanBus)
    (i mask : Nat) (rVal : Int) (frame : canfd_frame)
    (herr : frame.can_id &&& CAN_ERR_FLAG ≠ 0) :
    b.pollEvent mask rVal frame = none ∧ impl.pollEvent i mask rVal frame = [] := by
  have hb : ∀ b : CanBus, b.pollEvent mask rVal frame = none := by
    intro b
    unfold CanBus.pollEvent
    split_ifs <;> rfl
  refine ⟨hb b, ?_⟩
  unfold Impl.pollEvent
  cases impl.buses[i]? with
  | none => rfl
  | some b' => simp [hb b']

/-- C2 (witness): an error frame of classic size read on a started endpoint, with a table
holding a catch-all entry and an entry whose mask covers the error flag. -/
theorem C2_error_frame_reaches_no_callback_witness :
    (classicFrame 0x20000001).can_id &&& CAN_ERR_FLAG ≠ 0
      ∧ (openedBus4.pollEvent UV_READABLE 16 (classicFrame 0x20000001) = none
        ∧ errorMaskTable.pollEvent 0 UV_READABLE 16 (classicFrame 0x20000001) = []) :=
  ⟨by decide,
    C2_error_frame_reaches_no_callback errorMaskTable openedBus4 0 UV_READABLE 16
      (classicFrame 0x20000001) (by decide)⟩

/-- C9: for a readable event whose read left a frame without the error-frame bit, the
handler calls `upcall` exactly when the read size is `CAN_MTU` or `CANFD_MTU`; it then
makes one call, with the endpoint's own bus id, and with the frame as read for `CAN_MTU`
and with `flags` set to `CANFD_FDF` for `CANFD_MTU`. -/
theorem C9_readable_handler_forwards (b : CanBus) (mask : Nat) (rVal : Int)
    (frame : canfd_frame) (hbus : b.busId < 256) (hmask : mask &&& UV_READABLE ≠ 0)
    (hr : -2 ^ 31 ≤ rVal ∧ rVal < 2 ^ 31) (herr : frame.can_id &&& CAN_ERR_FLAG = 0) :
    ((b.pollEvent mask rVal frame).isSome = true ↔ (rVal = CAN_MTU ∨ rVal = CANFD_MTU))
      ∧ (rVal = CAN_MTU → b.pollEvent mask rVal frame = some (b.busId, frame))
      ∧ (rVal = CANFD_MTU →
          b.pollEvent mask rVal frame = some (b.busId, { frame with flags := CANFD_FDF })) := by
  have h16 := toSizeT_eq_iff rVal CAN_MTU hr (by decide)
  have h72 := toSizeT_eq_iff rVal CANFD_MTU hr (by decide)
  have hmod : b.busId % 256 = b.busId := Nat.mod_eq_of_lt hbus
  have d : ¬ ((CAN_MTU : Int) = CANFD_MTU) := by decide
  unfold CanBus.pollEvent
  rw [if_pos hmask]
  simp only [ne_eq, h16, h72, herr, hmod, not_true_eq_false, if_false]
  by_cases c16 : rVal = CAN_MTU
  · have r72 : ¬ rVal = (CANFD_MTU : Int) := fun h => d (c16.symm.trans h)
    simp [c16, d]
  · by_cases c72 : rVal = CANFD_MTU
    · simp [c72, Ne.symm d]
    · simp [c16, c72]

/-- C9 (witness): a flexible-data-rate read on the endpoint opened as bus 4. -/
theorem C9_readable_handler_forwards_witness :
    openedBus4.pollEvent UV_READABLE 72 (classicFrame 0x88040000)
      = some (4, { classicFrame 0x88040000 with flags := CANFD_FDF }) :=
  (C9_readable_handler_forwards openedBus4 UV_READABLE 72 (classicFrame 0x88040000)
    (by decide) (by decide) (by decide) (by decide)).2.2 rfl

/-! ### Opening the endpoints -/

/-- Whether `CanBus::Init` succeeds depends only on the outcomes of its system calls. -/
theorem CanBus.Init_fst (o : OpenOutcome) (bus : Nat) (b : CanBus) :
    (CanBus.Init o bus b).1
      = decide (o.socket ≠ -1 ∧ o.setsockopt ≠ -1 ∧ o.ioctl ≠ -1 ∧ o.bind ≠ -1) := by
  unfold CanBus.Init
  by_cases h1 : o.socket = -1
  · simp [h1]
  · by_cases h2 : o.setsockopt = -1
    · simp [h1, h2]
    · by_cases h3 : o.ioctl = -1
      · simp [h1, h2, h3]
      · by_cases h4 : o.bind = -1
        · simp [h1, h2, h3, h4]
        · simp [h1, h2, h3, h4]

/-- The endpoint after `CanBus::Init`: bus id and descriptor always; the poll handle and
the empty kernel filter after a successful open. -/
theorem CanBus.Init_snd (o : OpenOutcome) (bus : Nat) (b : CanBus) :
    (CanBus.Init o bus b).2.busId = bus
      ∧ (CanBus.Init o bus b).2.socketHandle = o.socket
      ∧ ((CanBus.Init o bus b).1 = true →
          (CanBus.Init o bus b).2
            = { socketHandle := o.socket, busId := bus, polling := true,
                kernelFilter := some ⟨[], 0⟩ }) := by
  unfold CanBus.Init
  by_cases h1 : o.socket = -1
  · simp [h1]
  · by_cases h2 : o.setsockopt = -1
    · simp [h1, h2]
    · by_cases h3 : o.ioctl = -1
      · simp [h1, h2, h3]
      · by_cases h4 : o.bind = -1
        · simp [h1, h2, h3, h4]
        · simp [h1, h2, h3, h4]

/-- C8 (as stated) fails: when `socket` succeeds with descriptor 3 and the filter reset
fails, `CanBus::Init` returns failure and `socketHandle` is 3, not -1. -/
theorem C8_counterexample :
    (CanBus.Init openFilterResetFails 0 {}).1 = false
      ∧ (CanBus.Init openFilterResetFails 0 {}).2.socketHandle = 3
      ∧ ¬ ((CanBus.Init openFilterResetFails 0 {}).2.socketHandle = -1) := by
  decide

/-- C8 (amended): after `CanBus::Init`, `socketHandle` is the value returned by `socket`.
A successful open leaves it different from -1; after a failed open it is -1 exactly when
the socket creation failed, and when the filter reset, the index lookup or the bind
failed it still holds the created descriptor, which the destructor closes. -/
theorem C8_socketHandle_after_Init (o : OpenOutcome) (bus : Nat) (b : CanBus) :
    (CanBus.Init o bus b).2.socketHandle = o.socket
      ∧ ((CanBus.Init o bus b).1 = true → (CanBus.Init o bus b).2.socketHandle ≠ -1)
      ∧ (o.socket = -1 →
          (CanBus.Init o bus b).1 = false ∧ (CanBus.Init o bus b).2.socketHandle = -1)
      ∧ (o.socket ≠ -1 →
          (CanBus.Init o bus b).2.socketHandle ≠ -1
            ∧ (CanBus.Init o bus b).2.destructor = [o.socket])
      ∧ ((CanBus.Init o bus b).1 = false →
          ((CanBus.Init o bus b).2.socketHandle = -1 ↔ o.socket = -1)) := by
  have hs := (CanBus.Init_snd o bus b).2.1
  have hf := CanBus.Init_fst o bus b
  refine ⟨hs, ?_, ?_, ?_, ?_⟩
  · intro h
    rw [hf, decide_eq_true_eq] at h
    rw [hs]
    exact h.1
  · intro h
    refine ⟨?_, hs.trans h⟩
    rw [hf]
    simp [h]
  · intro h
    refine ⟨by rw [hs]; exact h, ?_⟩
    unfold CanBus.destructor
    rw [hs, if_pos h]
  · intro _
    rw [hs]

/-- The endpoints after the loop of `CanLib::Impl::Init`. -/
theorem Impl.InitLoop_buses (env : Nat → OpenOutcome) (bs : List CanBus) :
    ∀ (i : Nat) (s : Bool) (j : Nat),
      (Impl.InitLoop env i s bs).1[j]?
        = bs[j]?.map (fun b => (CanBus.Init (env (i + j)) ((i + j) % 256) b).2) := by
  induction bs with
  | nil => intro i s j; simp [Impl.InitLoop]
  | cons b rest ih =>
    intro i s j
    cases j with
    | zero => simp [Impl.InitLoop]
    | succ j =>
      simp only [Impl.InitLoop, List.getElem?_cons_succ]
      rw [ih]
      have : i + 1 + j = i + (j + 1) := by omega
      rw [this]

/-- The calls made by the loop of `CanLib::Impl::Init`. -/
theorem Impl.InitLoop_calls (env : Nat → OpenOutcome) (bs : List CanBus) :
    ∀ (i : Nat) (s : Bool) (j : Nat),
      (Impl.InitLoop env i s bs).2.2[j]?
        = bs[j]?.map (fun b =>
            (⟨i + j, (i + j) % 256, (CanBus.Init (env (i + j)) ((i + j) % 256) b).1⟩ :
              InitCall)) := by
  induction bs with
  | nil => intro i s j; simp [Impl.InitLoop]
  | cons b rest ih =>
    intro i s j
    cases j with
    | zero => simp [Impl.InitLoop]
    | succ j =>
      simp only [Impl.InitLoop, List.getElem?_cons_succ]
      rw [ih]
      have : i + 1 + j = i + (j + 1) := by omega
      rw [this]

/-- The indices and bus ids of the calls made by the loop of `CanLib::Impl::Init`. -/
theorem Impl.InitLoop_calls_ids (env : Nat → OpenOutcome) (bs : List CanBus) :
    ∀ (i : Nat) (s : Bool),
      (Impl.InitLoop env i s bs).2.2.map (fun c => (c.index, c.bus))
        = (List.range' i bs.length).map (fun k => (k, k % 256)) := by
  induction bs with
  | nil => intro i s; simp [Impl.InitLoop]
  | cons b rest ih =>
    intro i s
    simp only [Impl.InitLoop, List.map_cons, List.length_cons, List.range'_succ]
    rw [ih]

/-- The flag computed by the loop of `CanLib::Impl::Init`. -/
theorem Impl.InitLoop_success (env : Nat → OpenOutcome) (bs : List CanBus) :
    ∀ (i : Nat) (s : Bool),
      ((Impl.InitLoop env i s bs).2.1 = true
        ↔ (s = true ∧ ∀ (j : Nat) (b : CanBus), bs[j]? = some b →
            (CanBus.Init (env (i + j)) ((i + j) % 256) b).1 = true)) := by
  induction bs with
  | nil => intro i s; simp [Impl.InitLoop]
  | cons b rest ih =>
    intro i s
    simp only [Impl.InitLoop]
    rw [ih]
    constructor
    · rintro ⟨hs, hrest⟩
      have hb : (CanBus.Init (env i) (i % 256) b).1 = true := by
        cases hb : (CanBus.Init (env i) (i % 256) b).1 <;> simp [hb] at hs ⊢
      refine ⟨by simpa [hb] using hs, ?_⟩
      intro j b' hj
      cases j with
      | zero =>
        simp only [List.getElem?_cons_zero, Option.some.injEq] at hj
        subst hj
        simpa using hb
      | succ j =>
        simp only [List.getElem?_cons_succ] at hj
        have := hrest j b' hj
        have e : i + 1 + j = i + (j + 1) := by omega
        rwa [e] at this
    · rintro ⟨hs, hall⟩
      have hb : (CanBus.Init (env i) (i % 256) b).1 = true := by
        simpa using hall 0 b (by simp)
      refine ⟨by simp [hb, hs], ?_⟩
      intro j b' hj
      have := hall (j + 1) b' (by simpa using hj)
      have e : i + 1 + j = i + (j + 1) := by omega
      rwa [e]

/-- C6: `CanLib::Impl::Init` calls `CanBus::Init` on the endpoints 0 to 4, once each, in
this order and each with its own index as bus id, whatever the earlier calls returned,
and returns true exactly when every one of these calls returned true. -/
theorem C6_Impl_Init_attempts_all_and_ands {κ : Type} (env : Nat → OpenOutcome)
    (impl : Impl κ) (hlen : impl.buses.length = NUM_CAN_BUSES) :
    (impl.Init env).calls.map (fun c => (c.index, c.bus))
        = [(0, 0), (1, 1), (2, 2), (3, 3), (4, 4)]
      ∧ (∀ (i : Nat) (b : CanBus), impl.buses[i]? = some b →
          (impl.Init env).calls[i]? = some ⟨i, i, (CanBus.Init (env i) i b).1⟩
            ∧ (impl.Init env).impl.buses[i]? = some (CanBus.Init (env i) i b).2)
      ∧ ((impl.Init env).success = true ↔ ∀ c ∈ (impl.Init env).calls, c.ret = true)
      ∧ ((impl.Init env).success = true
          ↔ ∀ (i : Nat) (b : CanBus), impl.buses[i]? = some b →
              (CanBus.Init (env i) i b).1 = true) := by
  have hmod : ∀ (i : Nat) (b : CanBus), impl.buses[i]? = some b → i % 256 = i := by
    intro i b hi
    obtain ⟨hlt, _⟩ := List.getElem?_eq_some_iff.mp hi
    rw [hlen] at hlt
    unfold NUM_CAN_BUSES at hlt
    omega
  have hsucc : (impl.Init env).success = true
      ↔ ∀ (i : Nat) (b : CanBus), impl.buses[i]? = some b →
          (CanBus.Init (env i) i b).1 = true := by
    unfold Impl.Init
    simp only [Impl.InitLoop_success, true_and, Nat.zero_add]
    constructor
    · intro h i b hi
      have := h i b hi
      rwa [hmod i b hi] at this
    · intro h i b hi
      rw [hmod i b hi]
      exact h i b hi
  have hcalls : ∀ (i : Nat) (b : CanBus), impl.buses[i]? = some b →
      (impl.Init env).calls[i]? = some ⟨i, i, (CanBus.Init (env i) i b).1⟩ := by
    intro i b hi
    unfold Impl.Init
    simp only [Impl.InitLoop_calls, Nat.zero_add, hi, Option.map_some', hmod i b hi]
  refine ⟨?_, ?_, ?_, hsucc⟩
  · unfold Impl.Init
    simp only [Impl.InitLoop_calls_ids, hlen]
    decide
  · intro i b hi
    refine ⟨hcalls i b hi, ?_⟩
    unfold Impl.Init
    simp only [Impl.InitLoop_buses, Nat.zero_add, hi, Option.map_some', hmod i b hi]
  · rw [hsucc]
    constructor
    · intro h c hc
      obtain ⟨i, hi⟩ := List.mem_iff_getElem?.mp hc
      have hi2 := hi
      unfold Impl.Init at hi2
      simp only [Impl.InitLoop_calls, Nat.zero_add] at hi2
      cases hb : impl.buses[i]? with
      | none => simp [hb] at hi2
      | some b =>
        have hc2 := hcalls i b hb
        rw [hi] at hc2
        have hc3 : c = ⟨i, i, (CanBus.Init (env i) i b).1⟩ := Option.some.inj hc2
        rw [hc3]
        exact h i b hb
    · intro h i b hi
      exact h _ (List.getElem?_mem (hcalls i b hi))

/-- C6 (witness): the fresh implementation, with endpoint 0 failing at socket creation:
all five endpoints are attempted and the result is false. -/
theorem C6_Impl_Init_attempts_all_and_ands_witness :
    (Impl.fresh Unit).buses.length = NUM_CAN_BUSES
      ∧ ((Impl.fresh Unit).Init envBus0Fails).calls.map (fun c => (c.index, c.bus))
          = [(0, 0), (1, 1), (2, 2), (3, 3), (4, 4)] :=
  ⟨rfl, (C6_Impl_Init_attempts_all_and_ands envBus0Fails (Impl.fresh Unit) rfl).1⟩

/-- A classic-size read of a frame without the error flag is forwarded unchanged. -/
theorem CanBus.pollEvent_classic (b : CanBus) (frame : canfd_frame)
    (herr : frame.can_id &&& CAN_ERR_FLAG = 0) :
    b.pollEvent UV_READABLE CAN_MTU frame = some (b.busId % 256, frame) := by
  have h1 : toSizeT (CAN_MTU : Int) = CAN_MTU := by decide
  have h2 : ¬ (CAN_MTU = CANFD_MTU) := by decide
  have h3 : UV_READABLE &&& UV_READABLE ≠ 0 := by decide
  unfold CanBus.pollEvent
  rw [if_pos h3]
  simp [h1, h2, herr]

/-- The endpoints of a fresh implementation after `CanLib::Impl::Init`. -/
theorem Impl.Init_fresh_bus {κ : Type} (env : Nat → OpenOutcome) (i : Nat)
    (hi : i < NUM_CAN_BUSES) :
    ((Impl.fresh κ).Init env).impl.buses[i]? = some (CanBus.Init (env i) i {}).2 := by
  have hmod : i % 256 = i := by unfold NUM_CAN_BUSES at hi; omega
  unfold Impl.Init Impl.fresh
  simp only [Impl.InitLoop_buses, Nat.zero_add, List.getElem?_replicate_of_lt hi,
    Option.map_some', hmod]

/-- The result of `CanLib::Impl::Init` on a fresh implementation. -/
theorem Impl.Init_fresh_success {κ : Type} (env : Nat → OpenOutcome) :
    ((Impl.fresh κ).Init env).success = true
      ↔ ∀ i, i < NUM_CAN_BUSES → (CanBus.Init (env i) i {}).1 = true := by
  unfold Impl.Init Impl.fresh
  simp only [Impl.InitLoop_success, true_and, Nat.zero_add]
  constructor
  · intro h i hi
    have := h i {} (List.getElem?_replicate_of_lt hi)
    rw [CanBus.Init_fst] at this ⊢
    exact this
  · intro h i b hb
    obtain ⟨hlt, _⟩ := List.getElem?_eq_some_iff.mp hb
    rw [List.length_replicate] at hlt
    have := h i hlt
    rw [CanBus.Init_fst] at this ⊢
    exact this

/-- C7 (as stated) fails: when endpoint 0 fails at socket creation and the endpoints 1
to 4 open, `CanLib::Init` returns false with `pImpl` reset, so endpoint 1 is not
operational afterwards: the facade owns nothing and the four sockets have been closed. -/
theorem C7_counterexample :
    (CanBus.Init (envBus0Fails 0) 0 {}).1 = false
      ∧ (∀ i, i < NUM_CAN_BUSES → i ≠ 0 → (CanBus.Init (envBus0Fails i) i {}).1 = true)
      ∧ (CanLib.Init envBus0Fails ({} : CanLib Unit)).ret = false
      ∧ (CanLib.Init envBus0Fails ({} : CanLib Unit)).lib.pImpl.isNone = true
      ∧ (CanLib.Init envBus0Fails ({} : CanLib Unit)).lib.operational 1 = false
      ∧ (CanLib.Init envBus0Fails ({} : CanLib Unit)).closed = [7, 6, 5, 4] := by
  refine ⟨by decide, by decide, by decide, by decide, by decide, by decide⟩

/-- C7 (amended): when exactly one endpoint `j` fails to open, `CanLib::Impl::Init` still
opens every other endpoint and starts its handler (in the state it leaves, a classic
frame without error flag read on such an endpoint is forwarded to `DataCallback` with
that endpoint's index), but `CanLib::Init` then returns false and resets `pImpl`: the
implementation is destroyed, which closes the sockets of those endpoints, and afterwards
the facade owns no endpoint and none is operational. -/
theorem C7_one_failure_releases_all {κ : Type} (env : Nat → OpenOutcome) (c : CanLib κ)
    (j : Nat) (hj : j < NUM_CAN_BUSES)
    (hfail : (CanBus.Init (env j) j {}).1 = false)
    (hothers : ∀ i, i < NUM_CAN_BUSES → i ≠ j → (CanBus.Init (env i) i {}).1 = true) :
    (∀ i, i < NUM_CAN_BUSES → i ≠ j →
        ((Impl.fresh κ).Init env).impl.buses[i]?
            = some { socketHandle := (env i).socket, busId := i, polling := true,
                     kernelFilter := some ⟨[], 0⟩ }
          ∧ (env i).socket ≠ -1
          ∧ ∀ frame : canfd_frame, frame.can_id &&& CAN_ERR_FLAG = 0 →
              ((Impl.fresh κ).Init env).impl.pollEvent i UV_READABLE CAN_MTU frame
                = ((Impl.fresh κ).Init env).impl.DataCallback i frame)
      ∧ (CanLib.Init env c).ret = false
      ∧ (CanLib.Init env c).lib.pImpl.isNone = true
      ∧ (∀ i, (CanLib.Init env c).lib.operational i = false)
      ∧ (∀ i, i < NUM_CAN_BUSES → i ≠ j → (env i).socket ∈ (CanLib.Init env c).closed) := by
  have hnot : ((Impl.fresh κ).Init env).success = false := by
    cases hs : ((Impl.fresh κ).Init env).success with
    | false => rfl
    | true =>
      have := (Impl.Init_fresh_success env).mp hs j hj
      rw [hfail] at this
      exact absurd this (by decide)
  have hbus : ∀ i, i < NUM_CAN_BUSES → i ≠ j →
      ((Impl.fresh κ).Init env).impl.buses[i]?
          = some { socketHandle := (env i).socket, busId := i, polling := true,
                   kernelFilter := some ⟨[], 0⟩ }
        ∧ (env i).socket ≠ -1 := by
    intro i hi hij
    have hok := hothers i hi hij
    have hsock : (env i).socket ≠ -1 := by
      have := hok
      rw [CanBus.Init_fst, decide_eq_true_eq] at this
      exact this.1
    refine ⟨?_, hsock⟩
    rw [Impl.Init_fresh_bus env i hi, (CanBus.Init_snd (env i) i {}).2.2 hok]
  have hlib : CanLib.Init env c
      = ⟨false, ⟨none⟩,
          (match c.pImpl with
            | some old => old.destructor
            | none => []) ++ ((Impl.fresh κ).Init env).impl.destructor⟩ := by
    unfold CanLib.Init
    simp only [hnot, Bool.not_false, if_true]
  refine ⟨?_, ?_, ?_, ?_, ?_⟩
  · intro i hi hij
    obtain ⟨hb, hsock⟩ := hbus i hi hij
    refine ⟨hb, hsock, ?_⟩
    intro frame herr
    have hmod : i % 256 = i := by unfold NUM_CAN_BUSES at hi; omega
    unfold Impl.pollEvent
    simp only [hb, if_true]
    rw [CanBus.pollEvent_classic _ frame herr]
    simp only [hmod]
  · rw [hlib]
  · rw [hlib]
    rfl
  · intro i
    rw [hlib]
    rfl
  · intro i hi hij
    obtain ⟨hb, hsock⟩ := hbus i hi hij
    rw [hlib]
    apply List.mem_append_right
    unfold Impl.destructor
    refine List.mem_flatten.mpr ⟨[(env i).socket], ?_, List.mem_singleton.mpr rfl⟩
    refine List.mem_map.mpr ⟨_, List.mem_reverse.mpr (List.getElem?_mem hb), ?_⟩
    unfold CanBus.destructor
    simp only [ne_eq, hsock, not_false_eq_true, if_true]

/-- C7 (witness): endpoint 0 fails at socket creation, the endpoints 1 to 4 open with the
descriptors 4 to 7. -/
theorem C7_one_failure_releases_all_witness :
    (CanLib.Init envBus0Fails ({} : CanLib Unit)).ret = false
      ∧ (CanLib.Init envBus0Fails ({} : CanLib Unit)).lib.pImpl.isNone = true :=
  ⟨(C7_one_failure_releases_all envBus0Fails ({} : CanLib Unit) 0 (by decide) (by decide)
      (by decide)).2.1,
   (C7_one_failure_releases_all envBus0Fails ({} : CanLib Unit) 0 (by decide) (by decide)
      (by decide)).2.2.1⟩

/-! ### Registration -/

/-- The loop that appends the new entries appends them in their order. -/
theorem foldl_emplace_back {α : Type} (n : List α) :
    ∀ t : List α, n.foldl (fun acc f => acc ++ [f]) t = t ++ n := by
  induction n with
  | nil => intro t; simp
  | cons a rest ih =>
    intro t
    simp only [List.foldl_cons]
    rw [ih]
    simp

/-- The flag computed by the loop of `CanLib::Impl::AddCallback`. -/
theorem Impl.UpdateLoop_ret (rets : Nat → Int) (cf : List can_filter) (bs : List CanBus) :
    ∀ (i : Nat) (r : Bool),
      ((Impl.UpdateLoop rets cf i r bs).2 = true
        ↔ (r = true ∧ ∀ j, j < bs.length → rets (i + j) ≠ -1)) := by
  induction bs with
  | nil => intro i r; simp [Impl.UpdateLoop]
  | cons b rest ih =>
    intro i r
    simp only [Impl.UpdateLoop]
    rw [ih]
    have hu : (CanBus.UpdateFilters (rets i) cf b).1 = decide (rets i ≠ -1) := by
      unfold CanBus.UpdateFilters
      by_cases h : rets i = -1 <;> simp [h]
    rw [hu]
    constructor
    · rintro ⟨hs, hrest⟩
      have h0 : rets i ≠ -1 := by
        intro h
        simp [h] at hs
      refine ⟨by simpa [h0] using hs, ?_⟩
      intro j hj
      cases j with
      | zero => simpa using h0
      | succ j =>
        have := hrest j (by simpa using hj)
        have e : i + 1 + j = i + (j + 1) := by omega
        rwa [e] at this
    · rintro ⟨hs, hall⟩
      have h0 : rets i ≠ -1 := by simpa using hall 0 (by simp)
      refine ⟨by simp [h0, hs], ?_⟩
      intro j hj
      have := hall (j + 1) (by simpa using hj)
      have e : i + 1 + j = i + (j + 1) := by omega
      rwa [e]

/-- The table after `CanLib::Impl::AddCallback`. -/
theorem Impl.AddCallback_filters {κ : Type} (rets : Nat → Int)
    (n : List (MaskFilterCallback κ)) (impl : Impl κ) :
    (impl.AddCallback rets n).2.filters = impl.filters ++ n := by
  unfold Impl.AddCallback
  simp only [foldl_emplace_back]

/-- The value returned by `CanLib::Impl::AddCallback`. -/
theorem Impl.AddCallback_ret {κ : Type} (rets : Nat → Int)
    (n : List (MaskFilterCallback κ)) (impl : Impl κ) :
    (impl.AddCallback rets n).1 = true ↔ ∀ i, i < impl.buses.length → rets i ≠ -1 := by
  unfold Impl.AddCallback
  simp only [Impl.UpdateLoop_ret, true_and, Nat.zero_add]

/-- C4: `CanLib::Impl::AddCallback` appends the new entries to the table in their order,
whatever `UpdateFilters` returns on the endpoints (so whether it returns success or
failure); hence after registering `a` and then `b` the table is the old table, then `a`,
then `b`. -/
theorem C4_AddCallback_appends_without_rollback {κ : Type} (impl : Impl κ)
    (a b : List (MaskFilterCallback κ)) (rets rets2 : Nat → Int) :
    (impl.AddCallback rets a).2.filters = impl.filters ++ a
      ∧ ((impl.AddCallback rets a).2.AddCallback rets2 b).2.filters = impl.filters ++ a ++ b
      ∧ ((impl.AddCallback rets a).1 = true ↔ ∀ i, i < impl.buses.length → rets i ≠ -1) := by
  refine ⟨Impl.AddCallback_filters rets a impl, ?_, Impl.AddCallback_ret rets a impl⟩
  rw [Impl.AddCallback_filters, Impl.AddCallback_filters]

/-! ### The kernel-level filters -/

end mrc

namespace powerdistribution

open mrc

/-- C10 (the code at the failing input): after a start-up of `main` in which all five
endpoints open and the registration succeeds, a classic frame with id `0x88040000` read on
endpoint 2 is dispatched to the registered callback with bus id 2, and the callback's
access `states[2]` is outside the array `states`, whose length is 2 (every access with a
bus id from 2 on is). -/
theorem C10_states_index_out_of_bounds :
    ∃ (lib : CanLib Callback) (impl : Impl Callback),
      mainStartup envAllOk retsAllOk = some lib
        ∧ lib.pImpl = some impl
        ∧ (impl.pollEvent 2 UV_READABLE CAN_MTU (classicFrame 0x88040000)).map
              (fun inv => (inv.bus, inv.callback inv.bus inv.frame))
            = [(2, none)]
        ∧ 2 < mrc.NUM_CAN_BUSES
        ∧ ¬ (2 < states.length)
        ∧ states.length = powerdistribution.NUM_CAN_BUSES
        ∧ ∀ (bus : Nat) (frame : canfd_frame), 2 ≤ bus →
            SetupPowerDistribution.callback states bus frame = none := by
  refine ⟨_, _, rfl, rfl, by decide, by decide, by decide, by decide, ?_⟩
  intro bus frame hbus
  have hnone : states[bus]? = none := by
    apply List.getElem?_eq_none
    simpa [states, NUM_CAN_BUSES] using hbus
  unfold SetupPowerDistribution.callback
  simp only [hnone]

end powerdistribution
